import Mathlib

/-!
# Verification of the RSA key-object module (src/src/encryption/rsa.c)

Shallow embedding of the key-object operations of `rsa.c`. The struct
`s_rsa` carries the two validity flags, the abstract content of the
`EVP_PKEY` key handle, the `BIGNUM` scratch value and the digest-context
handle. OpenSSL primitives are external collaborators: each operation takes
an oracle record describing the outcomes of the primitive calls it makes,
and stateful C functions become Lean functions returning a result together
with the updated state. The constants `RSA_MINSIZE` and `RSA_MAXSIZE` come
from `rsa.h`, which is not part of the given source tree; they are kept as
explicit parameters (`minsize`, `maxsize`) of the definitions and the
theorems quantify over them.
-/

/-- Abstract content of an `EVP_PKEY` key handle: the responses of the two
query primitives the module uses on it. `derLen` is the value returned by
`i2d_PublicKey(key, _)` (the DER length in both size-query and write mode;
non-positive when the encode fails), `pkeySize` is `EVP_PKEY_size(key)`. -/
structure KeyMaterial where
  derLen : Int
  pkeySize : Int
deriving DecidableEq

/-- Content of a freshly allocated `EVP_PKEY_new()` handle: it holds no key,
so `i2d_PublicKey` fails (returns a non-positive value) and `EVP_PKEY_size`
is 0. -/
def emptyKey : KeyMaterial := { derLen := -1, pkeySize := 0 }

/-- The `struct s_rsa` of `rsa.c`: key handle content, `bn` scratch value
(its numeric content), `md` digest-context handle (abstract content), and
the two flags. -/
structure s_rsa where
  key : KeyMaterial
  bn : Int
  md : Int
  isvalid : Bool
  isprivate : Bool
deriving DecidableEq

/-- `RSA_F4`, the public exponent 0x10001 written by `BN_set_word`. -/
def RSA_F4 : Int := 65537

/-- `rsaIsValid`: returns the `isvalid` flag. -/
def rsaIsValid (rsa : s_rsa) : Bool := rsa.isvalid

/-- `rsaIsPrivate`: returns the `isprivate` flag. -/
def rsaIsPrivate (rsa : s_rsa) : Bool := rsa.isprivate

/-- `rsaGetDERSize`: `i2d_PublicKey(rsa->key, NULL)`, clamped to 0 when the
call does not return a positive length. -/
def rsaGetDERSize (rsa : s_rsa) : Int :=
  let len := rsa.key.derLen
  if len > 0 then len else 0

/-- `rsaGetDER`: checks `RSA_MINSIZE < ptlen < buf_size`, then performs the
writing `i2d_PublicKey` call (which returns the same length as the size
query on the same key). The output buffer itself is not modelled; the
function takes the state by `const` pointer, so the returned state is the
input state. -/
def rsaGetDER (minsize : Int) (buf_size : Int) (rsa : s_rsa) : Int × s_rsa :=
  let ptlen := rsaGetDERSize rsa
  if ptlen > minsize ∧ ptlen < buf_size then
    let len := rsa.key.derLen
    if len > 0 then (len, rsa) else (0, rsa)
  else (0, rsa)

/-- `rsaGetFingerprint`: stages the DER encoding in an internal buffer of
`RSA_MAXSIZE` bytes via `rsaGetDER(derbuf, RSA_MAXSIZE, rsa)`, then hashes
it. `sha` is the external `cryptoCalculateSHA256` collaborator, a function
of the caller-supplied output capacity and of the DER length. -/
def rsaGetFingerprint (minsize maxsize : Int) (sha : Int → Int → Int)
    (buf_size : Int) (rsa : s_rsa) : Int :=
  let dersize := (rsaGetDER minsize maxsize rsa).1
  if dersize > 0 then sha buf_size dersize else 0

/-- Outcomes of the primitive calls made by `rsaImportKey`: whether
`BIO_new_file` returned a stream, the key read by `PEM_read_bio_PrivateKey`
into `rsa->key` (`none` when the read fails and the handle keeps the fresh
empty key), and whether `RSA_check_key` on the result returned 1. -/
structure ImportOracle where
  bioOk : Bool
  readKey : Option KeyMaterial
  checkOk : Bool
deriving DecidableEq

/-- `rsaImportKey`: first replaces `rsa->key` by a fresh `EVP_PKEY_new()`
handle, then opens the file, reads a private key into the handle and runs
the consistency check. Note that no failure path touches `isvalid` or
`isprivate`, and that the key handle has already been replaced when the
file fails to open. -/
def rsaImportKey (o : ImportOracle) (rsa : s_rsa) : Int × s_rsa :=
  let rsa := { rsa with key := emptyKey }
  if ¬o.bioOk then (0, rsa)
  else
    let rsa :=
      match o.readKey with
      | some k => { rsa with key := k }
      | none => rsa
    if ¬o.checkOk then (0, rsa)
    else (1, { rsa with isvalid := true, isprivate := true })

/-- Outcomes of the primitive calls made by `rsaGenerate`: `RSA_new`,
`BN_set_word`, `RSA_generate_key_ex`, `RSA_check_key`,
`EVP_PKEY_assign_RSA`, and the material of the generated key. -/
structure GenOracle where
  rsaNewOk : Bool
  bnSetOk : Bool
  genOk : Bool
  checkOk : Bool
  assignOk : Bool
  newKey : KeyMaterial
deriving DecidableEq

/-- `rsaGenerate`: sets `isvalid := 0` on entry (but not `isprivate`),
rejects `key_size <= 0`, then runs the generation pipeline; `BN_set_word`
writes `RSA_F4` into `rsa->bn`, and on success `EVP_PKEY_assign_RSA`
installs the generated key in the handle and both flags are set. -/
def rsaGenerate (o : GenOracle) (key_size : Int) (rsa : s_rsa) : Int × s_rsa :=
  let rsa := { rsa with isvalid := false }
  if key_size ≤ 0 then (0, rsa)
  else if ¬o.rsaNewOk then (0, rsa)
  else if ¬o.bnSetOk then (0, rsa)
  else
    let rsa := { rsa with bn := RSA_F4 }
    if ¬o.genOk then (0, rsa)
    else if ¬o.checkOk then (0, rsa)
    else if ¬o.assignOk then (0, rsa)
    else (1, { rsa with key := o.newKey, isvalid := true, isprivate := true })

/-- `rsaLoadDER`: sets `isvalid := 0` on entry, checks
`pubkey_size > RSA_MINSIZE && pubkey != NULL`, then decodes. The input
pointer is `Option` (with `none` for `NULL`); `o` is the result of the
`d2i_PublicKey` call, `none` when decoding fails. -/
def rsaLoadDER (minsize : Int) (o : Option KeyMaterial)
    (pubkey : Option (List Nat)) (pubkey_size : Int) (rsa : s_rsa) : Int × s_rsa :=
  let rsa := { rsa with isvalid := false }
  if pubkey_size > minsize ∧ pubkey.isSome then
    match o with
    | some k => (1, { rsa with key := k, isvalid := true, isprivate := false })
    | none => (0, rsa)
  else (0, rsa)

/-- Outcomes of the primitive calls made by `rsaLoadPEM`:
`BIO_new_mem_buf`, `RSA_new`, and the key read by
`PEM_read_bio_RSA_PUBKEY` (`none` on decode failure). -/
structure LoadPEMOracle where
  bioOk : Bool
  rsaNewOk : Bool
  readKey : Option KeyMaterial
deriving DecidableEq

/-- `rsaLoadPEM`: sets `isvalid := 0` on entry, checks
`pubkey_size > 0 && pubkey != NULL`, and on a successful PEM decode assigns
the key into the handle and marks the object valid and public. -/
def rsaLoadPEM (o : LoadPEMOracle) (pubkey : Option (List Nat))
    (pubkey_size : Int) (rsa : s_rsa) : Int × s_rsa :=
  let rsa := { rsa with isvalid := false }
  if pubkey_size > 0 ∧ pubkey.isSome then
    if ¬o.bioOk then (0, rsa)
    else if ¬o.rsaNewOk then (0, rsa)
    else
      match o.readKey with
      | some k => (1, { rsa with key := k, isvalid := true, isprivate := false })
      | none => (0, rsa)
  else (0, rsa)

/-- Outcomes of the primitive calls made by `rsaLoadPrivatePEM`: as for
`rsaLoadPEM` plus the `RSA_check_key` consistency check. -/
structure LoadPrivPEMOracle where
  bioOk : Bool
  rsaNewOk : Bool
  readKey : Option KeyMaterial
  checkOk : Bool
deriving DecidableEq

/-- `rsaLoadPrivatePEM`: sets `isvalid := 0` on entry, checks
`privkey_size > 0 && privkey != NULL`, decodes a PEM private key, runs the
consistency check, and on success marks the object valid and private. -/
def rsaLoadPrivatePEM (o : LoadPrivPEMOracle) (privkey : Option (List Nat))
    (privkey_size : Int) (rsa : s_rsa) : Int × s_rsa :=
  let rsa := { rsa with isvalid := false }
  if privkey_size > 0 ∧ privkey.isSome then
    if ¬o.bioOk then (0, rsa)
    else if ¬o.rsaNewOk then (0, rsa)
    else
      match o.readKey with
      | some k =>
          if ¬o.checkOk then (0, rsa)
          else (1, { rsa with key := k, isvalid := true, isprivate := true })
      | none => (0, rsa)
  else (0, rsa)

/-- `rsaSignSize`: `EVP_PKEY_size(rsa->key)`. -/
def rsaSignSize (rsa : s_rsa) : Int := rsa.key.pkeySize

/-- Outcomes of the digest primitive calls made by `rsaSign`:
`EVP_SignInit_ex`, `EVP_SignUpdate`, `EVP_SignFinal`, the length written by
a succeeding `EVP_SignFinal`, and the digest-context content after the
calls (the primitives mutate `rsa->md`). -/
structure SignOracle where
  initOk : Bool
  updateOk : Bool
  finalOk : Bool
  finalLen : Int
  mdAfter : Int
deriving DecidableEq

/-- `rsaSign`: rejects `sign_len < rsaSignSize`, then runs the
init/update/final digest pipeline on `rsa->md`, and returns the length
written by `EVP_SignFinal` provided it is positive. The message buffer
`in_buf`/`in_len` reaches the primitives only, so it is carried as a
parameter consumed by the oracle. Output signature buffer not modelled. -/
def rsaSign (o : SignOracle) (sign_len : Int) (in_buf : List Nat)
    (in_len : Int) (rsa : s_rsa) : Int × s_rsa :=
  let sign_maxlen := rsaSignSize rsa
  if sign_len < sign_maxlen then (0, rsa)
  else
    let rsa := { rsa with md := o.mdAfter }
    if ¬o.initOk then (0, rsa)
    else if ¬o.updateOk then (0, rsa)
    else if ¬o.finalOk then (0, rsa)
    else if ¬(o.finalLen > 0) then (0, rsa)
    else (o.finalLen, rsa)

/-- Outcomes of the digest primitive calls made by `rsaVerify`:
`EVP_VerifyInit_ex`, `EVP_VerifyUpdate`, `EVP_VerifyFinal`, and the
digest-context content after the calls. -/
structure VerifyOracle where
  initOk : Bool
  updateOk : Bool
  finalOk : Bool
  mdAfter : Int
deriving DecidableEq

/-- `rsaVerify`: runs the init/update/final verification pipeline on
`rsa->md` against `rsa->key`; returns 1 when every call succeeds, 0
otherwise. Buffers reach the primitives only. -/
def rsaVerify (o : VerifyOracle) (sign_buf : List Nat) (sign_len : Int)
    (in_buf : List Nat) (in_len : Int) (rsa : s_rsa) : Int × s_rsa :=
  let rsa := { rsa with md := o.mdAfter }
  if ¬o.initOk then (0, rsa)
  else if ¬o.updateOk then (0, rsa)
  else if ¬o.finalOk then (0, rsa)
  else (1, rsa)

/-- `rsaReset`: clears both flags, touches nothing else. -/
def rsaReset (rsa : s_rsa) : s_rsa :=
  { rsa with isvalid := false, isprivate := false }

/-- State produced by the successful path of `rsaCreate`: `BN_new` then
`BN_zero` give `bn = 0`, `EVP_PKEY_new` gives the empty key handle,
`EVP_MD_CTX_create` gives some digest-context handle `md`, and `rsaReset`
clears both flags. -/
def rsaCreateOk (md : Int) : s_rsa :=
  { key := emptyKey, bn := 0, md := md, isvalid := false, isprivate := false }

/-- States reachable from a successful `rsaCreate` by any sequence of the
module's operations, each with arbitrary inputs and arbitrary primitive
outcomes. `rsaGetDERSize` and `rsaGetFingerprint` take the object by
`const` pointer and leave the state unchanged, so their steps keep the
state. -/
inductive Reach : s_rsa → Prop
  | create (md : Int) : Reach (rsaCreateOk md)
  | reset {s : s_rsa} : Reach s → Reach (rsaReset s)
  | importKey {s : s_rsa} (o : ImportOracle) : Reach s → Reach (rsaImportKey o s).2
  | generate {s : s_rsa} (o : GenOracle) (ks : Int) : Reach s →
      Reach (rsaGenerate o ks s).2
  | loadDER {s : s_rsa} (minsize : Int) (o : Option KeyMaterial)
      (pk : Option (List Nat)) (n : Int) : Reach s →
      Reach (rsaLoadDER minsize o pk n s).2
  | loadPEM {s : s_rsa} (o : LoadPEMOracle) (pk : Option (List Nat))
      (n : Int) : Reach s → Reach (rsaLoadPEM o pk n s).2
  | loadPrivatePEM {s : s_rsa} (o : LoadPrivPEMOracle) (pk : Option (List Nat))
      (n : Int) : Reach s → Reach (rsaLoadPrivatePEM o pk n s).2
  | sign {s : s_rsa} (o : SignOracle) (sl : Int) (ib : List Nat) (il : Int) :
      Reach s → Reach (rsaSign o sl ib il s).2
  | verify {s : s_rsa} (o : VerifyOracle) (sb : List Nat) (sl : Int)
      (ib : List Nat) (il : Int) : Reach s →
      Reach (rsaVerify o sb sl ib il s).2
  | getDER {s : s_rsa} (minsize cap : Int) : Reach s →
      Reach (rsaGetDER minsize cap s).2
  | getDERSize {s : s_rsa} : Reach s → Reach s
  | getFingerprint {s : s_rsa} : Reach s → Reach s

/-- States reachable from a successful `rsaCreate` when every
`rsaGenerate`, `rsaLoadDER`, `rsaLoadPEM` and `rsaLoadPrivatePEM` call in
the sequence succeeds (returns 1); `rsaImportKey`, `rsaReset` and the
read-side operations remain unrestricted. -/
inductive ReachOk : s_rsa → Prop
  | create (md : Int) : ReachOk (rsaCreateOk md)
  | reset {s : s_rsa} : ReachOk s → ReachOk (rsaReset s)
  | importKey {s : s_rsa} (o : ImportOracle) : ReachOk s →
      ReachOk (rsaImportKey o s).2
  | generate {s : s_rsa} (o : GenOracle) (ks : Int) : ReachOk s →
      (rsaGenerate o ks s).1 = 1 → ReachOk (rsaGenerate o ks s).2
  | loadDER {s : s_rsa} (minsize : Int) (o : Option KeyMaterial)
      (pk : Option (List Nat)) (n : Int) : ReachOk s →
      (rsaLoadDER minsize o pk n s).1 = 1 →
      ReachOk (rsaLoadDER minsize o pk n s).2
  | loadPEM {s : s_rsa} (o : LoadPEMOracle) (pk : Option (List Nat))
      (n : Int) : ReachOk s → (rsaLoadPEM o pk n s).1 = 1 →
      ReachOk (rsaLoadPEM o pk n s).2
  | loadPrivatePEM {s : s_rsa} (o : LoadPrivPEMOracle) (pk : Option (List Nat))
      (n : Int) : ReachOk s → (rsaLoadPrivatePEM o pk n s).1 = 1 →
      ReachOk (rsaLoadPrivatePEM o pk n s).2
  | sign {s : s_rsa} (o : SignOracle) (sl : Int) (ib : List Nat) (il : Int) :
      ReachOk s → ReachOk (rsaSign o sl ib il s).2
  | verify {s : s_rsa} (o : VerifyOracle) (sb : List Nat) (sl : Int)
      (ib : List Nat) (il : Int) : ReachOk s →
      ReachOk (rsaVerify o sb sl ib il s).2
  | getDER {s : s_rsa} (minsize cap : Int) : ReachOk s →
      ReachOk (rsaGetDER minsize cap s).2
  | getDERSize {s : s_rsa} : ReachOk s → ReachOk s
  | getFingerprint {s : s_rsa} : ReachOk s → ReachOk s

/-- Material of a realistic generated 2048-bit RSA key: its public-key DER
encoding is 270 bytes and `EVP_PKEY_size` is 256. -/
def genKey : KeyMaterial := { derLen := 270, pkeySize := 256 }

/-- Oracle for a fully successful `rsaGenerate` producing `genKey`. -/
def oGenOk : GenOracle :=
  { rsaNewOk := true, bnSetOk := true, genOk := true, checkOk := true,
    assignOk := true, newKey := genKey }

/-- An arbitrary generation oracle; a `rsaGenerate` call with
`key_size = 0` returns before consulting any primitive, so its fields are
irrelevant. -/
def oGenAny : GenOracle :=
  { rsaNewOk := false, bnSetOk := false, genOk := false, checkOk := false,
    assignOk := false, newKey := emptyKey }

/-- The state after `rsaCreate` followed by a successful
`rsaGenerate(2048)`: it holds a valid private key. -/
def sPriv : s_rsa := (rsaGenerate oGenOk 2048 (rsaCreateOk 0)).2

/-- The state after a further failed `rsaGenerate(0)` on `sPriv`. -/
def sBad : s_rsa := (rsaGenerate oGenAny 0 sPriv).2

/-- Digest oracle in which every sign primitive succeeds and
`EVP_SignFinal` writes the full 256-byte signature — the behaviour of the
primitives when the key handle holds a valid 2048-bit private key. -/
def oSignOk : SignOracle :=
  { initOk := true, updateOk := true, finalOk := true, finalLen := 256,
    mdAfter := 0 }

/-- Digest oracle in which every verify primitive succeeds — the behaviour
on a matching signature under the valid key held in the handle. -/
def oVerifyOk : VerifyOracle :=
  { initOk := true, updateOk := true, finalOk := true, mdAfter := 0 }

/-- Sign oracle in which `EVP_SignFinal` fails — the behaviour of the
primitives when the key handle holds no private key material. -/
def oSignFail : SignOracle :=
  { initOk := true, updateOk := true, finalOk := false, finalLen := 0,
    mdAfter := 0 }

/-- Verify oracle in which `EVP_VerifyFinal` fails — the behaviour of the
primitives when the key handle holds no key material. -/
def oVerifyFail : VerifyOracle :=
  { initOk := true, updateOk := true, finalOk := false, mdAfter := 0 }

/-- Import oracle for an unreadable key file: `BIO_new_file` fails. -/
def oImportFail : ImportOracle :=
  { bioOk := false, readKey := none, checkOk := false }

/-- Public-PEM load oracle in which the PEM decode fails. -/
def oLoadPEMFail : LoadPEMOracle :=
  { bioOk := true, rsaNewOk := true, readKey := none }

/-- Private-PEM load oracle in which the key decodes but fails the
`RSA_check_key` consistency check. -/
def oLoadPrivPEMFail : LoadPrivPEMOracle :=
  { bioOk := true, rsaNewOk := true, readKey := some genKey, checkOk := false }

/-! ## Flag-behaviour helper lemmas, one per state-changing operation -/

/-- `rsaGenerate` either succeeds with both flags set, or fails with
`isvalid` cleared and `isprivate` untouched. -/
lemma rsaGenerate_flag_cases (o : GenOracle) (ks : Int) (s : s_rsa) :
    ((rsaGenerate o ks s).1 = 1 ∧ (rsaGenerate o ks s).2.isvalid = true ∧
      (rsaGenerate o ks s).2.isprivate = true) ∨
    ((rsaGenerate o ks s).1 = 0 ∧ (rsaGenerate o ks s).2.isvalid = false ∧
      (rsaGenerate o ks s).2.isprivate = s.isprivate) := by
  unfold rsaGenerate
  split_ifs <;> simp

/-- `rsaImportKey` either succeeds with both flags set, or fails with both
flags left at their pre-call values. -/
lemma rsaImportKey_flag_cases (o : ImportOracle) (s : s_rsa) :
    ((rsaImportKey o s).1 = 1 ∧ (rsaImportKey o s).2.isvalid = true ∧
      (rsaImportKey o s).2.isprivate = true) ∨
    ((rsaImportKey o s).1 = 0 ∧ (rsaImportKey o s).2.isvalid = s.isvalid ∧
      (rsaImportKey o s).2.isprivate = s.isprivate) := by
  unfold rsaImportKey
  rcases h : o.readKey with _ | k <;> simp only [h] <;> split_ifs <;> simp

/-- `rsaLoadDER` either succeeds with `isvalid` set and `isprivate`
cleared, or fails with `isvalid` cleared and `isprivate` untouched. -/
lemma rsaLoadDER_flag_cases (minsize : Int) (o : Option KeyMaterial)
    (pk : Option (List Nat)) (n : Int) (s : s_rsa) :
    ((rsaLoadDER minsize o pk n s).1 = 1 ∧
      (rsaLoadDER minsize o pk n s).2.isvalid = true ∧
      (rsaLoadDER minsize o pk n s).2.isprivate = false) ∨
    ((rsaLoadDER minsize o pk n s).1 = 0 ∧
      (rsaLoadDER minsize o pk n s).2.isvalid = false ∧
      (rsaLoadDER minsize o pk n s).2.isprivate = s.isprivate) := by
  unfold rsaLoadDER
  rcases h : o with _ | k <;> split_ifs <;> simp

/-- `rsaLoadPEM` either succeeds with `isvalid` set and `isprivate`
cleared, or fails with `isvalid` cleared and `isprivate` untouched. -/
lemma rsaLoadPEM_flag_cases (o : LoadPEMOracle) (pk : Option (List Nat))
    (n : Int) (s : s_rsa) :
    ((rsaLoadPEM o pk n s).1 = 1 ∧ (rsaLoadPEM o pk n s).2.isvalid = true ∧
      (rsaLoadPEM o pk n s).2.isprivate = false) ∨
    ((rsaLoadPEM o pk n s).1 = 0 ∧ (rsaLoadPEM o pk n s).2.isvalid = false ∧
      (rsaLoadPEM o pk n s).2.isprivate = s.isprivate) := by
  unfold rsaLoadPEM
  rcases h : o.readKey with _ | k <;> simp only [h] <;> split_ifs <;> simp

/-- `rsaLoadPrivatePEM` either succeeds with both flags set, or fails with
`isvalid` cleared and `isprivate` untouched. -/
lemma rsaLoadPrivatePEM_flag_cases (o : LoadPrivPEMOracle)
    (pk : Option (List Nat)) (n : Int) (s : s_rsa) :
    ((rsaLoadPrivatePEM o pk n s).1 = 1 ∧
      (rsaLoadPrivatePEM o pk n s).2.isvalid = true ∧
      (rsaLoadPrivatePEM o pk n s).2.isprivate = true) ∨
    ((rsaLoadPrivatePEM o pk n s).1 = 0 ∧
      (rsaLoadPrivatePEM o pk n s).2.isvalid = false ∧
      (rsaLoadPrivatePEM o pk n s).2.isprivate = s.isprivate) := by
  unfold rsaLoadPrivatePEM
  rcases h : o.readKey with _ | k <;> simp only [h] <;> split_ifs <;> simp

/-- `rsaSign` writes only the digest context: both flags, the key handle
and the scratch value keep their pre-call values. -/
lemma rsaSign_frame (o : SignOracle) (sl : Int) (ib : List Nat) (il : Int)
    (s : s_rsa) :
    (rsaSign o sl ib il s).2.isvalid = s.isvalid ∧
    (rsaSign o sl ib il s).2.isprivate = s.isprivate ∧
    (rsaSign o sl ib il s).2.key = s.key ∧
    (rsaSign o sl ib il s).2.bn = s.bn := by
  unfold rsaSign
  dsimp only
  split_ifs <;> simp

/-- `rsaVerify` writes only the digest context: both flags, the key handle
and the scratch value keep their pre-call values. -/
lemma rsaVerify_frame (o : VerifyOracle) (sb : List Nat) (sl : Int)
    (ib : List Nat) (il : Int) (s : s_rsa) :
    (rsaVerify o sb sl ib il s).2.isvalid = s.isvalid ∧
    (rsaVerify o sb sl ib il s).2.isprivate = s.isprivate ∧
    (rsaVerify o sb sl ib il s).2.key = s.key ∧
    (rsaVerify o sb sl ib il s).2.bn = s.bn := by
  unfold rsaVerify
  split_ifs <;> simp

/-- `rsaGetDER` takes the object by `const` pointer: the state is returned
unchanged. -/
lemma rsaGetDER_state (minsize cap : Int) (s : s_rsa) :
    (rsaGetDER minsize cap s).2 = s := by
  unfold rsaGetDER
  dsimp only
  split_ifs <;> simp

/-! ## Claim theorems -/

/-- C7: for every key object in every state, `rsaReset` sets both
`isvalid` and `isprivate` to false and leaves the key handle, the scratch
value and the digest context unchanged — it neither releases nor
reallocates any of them. -/
theorem rsaReset_frame (s : s_rsa) :
    (rsaReset s).isvalid = false ∧ (rsaReset s).isprivate = false ∧
    (rsaReset s).key = s.key ∧ (rsaReset s).bn = s.bn ∧
    (rsaReset s).md = s.md := by
  simp [rsaReset]

/-- C9: the read-side operations `rsaSign`, `rsaVerify` and `rsaGetDER`
never modify the `isvalid` and `isprivate` flags: after any call to any of
them, both flags equal their pre-call values. -/
theorem rsa_read_ops_preserve_flags (s : s_rsa) (so : SignOracle) (sl : Int)
    (ib : List Nat) (il : Int) (vo : VerifyOracle) (sb : List Nat)
    (vsl : Int) (vib : List Nat) (vil : Int) (minsize cap : Int) :
    ((rsaSign so sl ib il s).2.isvalid = s.isvalid ∧
      (rsaSign so sl ib il s).2.isprivate = s.isprivate) ∧
    ((rsaVerify vo sb vsl vib vil s).2.isvalid = s.isvalid ∧
      (rsaVerify vo sb vsl vib vil s).2.isprivate = s.isprivate) ∧
    ((rsaGetDER minsize cap s).2.isvalid = s.isvalid ∧
      (rsaGetDER minsize cap s).2.isprivate = s.isprivate) :=
  ⟨⟨(rsaSign_frame so sl ib il s).1, (rsaSign_frame so sl ib il s).2.1⟩,
   ⟨(rsaVerify_frame vo sb vsl vib vil s).1,
    (rsaVerify_frame vo sb vsl vib vil s).2.1⟩,
   by rw [rsaGetDER_state], by rw [rsaGetDER_state]⟩

/-- C3: for every valid key object (one whose key actually encodes, so the
`i2d` length `derLen` is positive) and every capacity, `rsaGetDER` returns
the encoded length exactly when the computed DER size is strictly greater
than `RSA_MINSIZE` and strictly less than the capacity, and returns 0 in
every other case; in particular it returns 0 whenever the capacity is at
most the encoded size, while capacity = size + 1 succeeds. -/
theorem rsaGetDER_size_bounds (minsize cap : Int) (s : s_rsa)
    (hv : s.isvalid = true) (hd : 0 < s.key.derLen) :
    ((rsaGetDER minsize cap s).1 = s.key.derLen ↔
      (minsize < s.key.derLen ∧ s.key.derLen < cap)) ∧
    (¬(minsize < s.key.derLen ∧ s.key.derLen < cap) →
      (rsaGetDER minsize cap s).1 = 0) ∧
    (cap ≤ s.key.derLen → (rsaGetDER minsize cap s).1 = 0) ∧
    (minsize < s.key.derLen →
      (rsaGetDER minsize (s.key.derLen + 1) s).1 = s.key.derLen) := by
  unfold rsaGetDER rsaGetDERSize
  dsimp only
  split_ifs <;> simp_all <;> omega

/-- Witness for C3: a key whose DER encoding is 270 bytes, probed with
`RSA_MINSIZE = 32` and capacity 512. -/
theorem rsaGetDER_size_bounds_witness :
    ((rsaGetDER 32 512 sPriv).1 = sPriv.key.derLen ↔
      (32 < sPriv.key.derLen ∧ sPriv.key.derLen < 512)) ∧
    (¬(32 < sPriv.key.derLen ∧ sPriv.key.derLen < 512) →
      (rsaGetDER 32 512 sPriv).1 = 0) ∧
    (512 ≤ sPriv.key.derLen → (rsaGetDER 32 512 sPriv).1 = 0) ∧
    (32 < sPriv.key.derLen →
      (rsaGetDER 32 (sPriv.key.derLen + 1) sPriv).1 = sPriv.key.derLen) :=
  rsaGetDER_size_bounds 32 512 sPriv (by decide) (by decide)

/-- C8: `rsaGetFingerprint` stages the DER encoding in an internal buffer
of `RSA_MAXSIZE` bytes, so it returns 0 whenever the key's `i2d` length is
greater than or equal to `RSA_MAXSIZE` or less than or equal to
`RSA_MINSIZE`, independently of the caller-supplied output capacity and of
the hash collaborator. -/
theorem rsaGetFingerprint_bounds (minsize maxsize : Int)
    (sha : Int → Int → Int) (buf_size : Int) (s : s_rsa)
    (h : maxsize ≤ s.key.derLen ∨ s.key.derLen ≤ minsize) :
    rsaGetFingerprint minsize maxsize sha buf_size s = 0 := by
  unfold rsaGetFingerprint rsaGetDER rsaGetDERSize
  dsimp only
  split_ifs <;> simp_all <;> omega

/-- Witness for C8: with `RSA_MINSIZE = 32` and `RSA_MAXSIZE = 416`, a key
whose DER encoding is 500 bytes fingerprints to 0 even with a huge output
capacity. -/
theorem rsaGetFingerprint_bounds_witness :
    rsaGetFingerprint 32 416 (fun a b => a + b) 1000
      { key := { derLen := 500, pkeySize := 512 }, bn := 0, md := 0,
        isvalid := true, isprivate := false } = 0 :=
  rsaGetFingerprint_bounds 32 416 (fun a b => a + b) 1000
    { key := { derLen := 500, pkeySize := 512 }, bn := 0, md := 0,
      isvalid := true, isprivate := false } (Or.inl (by decide))

/-- C5: for every key object and every input whose declared length is at
most `RSA_MINSIZE`, `rsaLoadDER` returns failure, leaves the object
invalid, and never consults the DER decoder (the result is the same for
every decoder outcome, hence also for well-formed DER prefixes). -/
theorem rsaLoadDER_rejects_short_input (minsize : Int)
    (o : Option KeyMaterial) (pk : Option (List Nat)) (n : Int) (s : s_rsa)
    (h : n ≤ minsize) :
    (rsaLoadDER minsize o pk n s).1 = 0 ∧
    (rsaLoadDER minsize o pk n s).2.isvalid = false ∧
    ∀ o' : Option KeyMaterial,
      rsaLoadDER minsize o' pk n s = rsaLoadDER minsize o pk n s := by
  have hg : ¬(n > minsize) := by omega
  unfold rsaLoadDER
  simp [hg]

/-- Witness for C5: ten bytes of valid-looking DER prefix with declared
length 10 are rejected under `RSA_MINSIZE = 32`, on an object that held a
private key. -/
theorem rsaLoadDER_rejects_short_input_witness :
    (rsaLoadDER 32 (some genKey) (some [48, 130, 1, 10, 2, 130, 1, 1, 0, 1])
        10 sPriv).1 = 0 ∧
    (rsaLoadDER 32 (some genKey) (some [48, 130, 1, 10, 2, 130, 1, 1, 0, 1])
        10 sPriv).2.isvalid = false ∧
    ∀ o' : Option KeyMaterial,
      rsaLoadDER 32 o' (some [48, 130, 1, 10, 2, 130, 1, 1, 0, 1]) 10 sPriv =
        rsaLoadDER 32 (some genKey) (some [48, 130, 1, 10, 2, 130, 1, 1, 0, 1])
          10 sPriv :=
  rsaLoadDER_rejects_short_input 32 (some genKey)
    (some [48, 130, 1, 10, 2, 130, 1, 1, 0, 1]) 10 sPriv (by decide)

/-- C10: each of `rsaLoadDER`, `rsaLoadPEM` and `rsaLoadPrivatePEM`, when
the input pointer is `NULL`, returns failure without consulting the
decoder (the result is identical for every decoder outcome), and the
object's `isvalid` flag is false afterwards. -/
theorem rsa_loaders_null_input (minsize : Int) (oD : Option KeyMaterial)
    (oP : LoadPEMOracle) (oPr : LoadPrivPEMOracle) (n : Int) (s : s_rsa) :
    ((rsaLoadDER minsize oD none n s).1 = 0 ∧
      (rsaLoadDER minsize oD none n s).2.isvalid = false ∧
      ∀ oD' : Option KeyMaterial,
        rsaLoadDER minsize oD' none n s = rsaLoadDER minsize oD none n s) ∧
    ((rsaLoadPEM oP none n s).1 = 0 ∧
      (rsaLoadPEM oP none n s).2.isvalid = false ∧
      ∀ oP' : LoadPEMOracle,
        rsaLoadPEM oP' none n s = rsaLoadPEM oP none n s) ∧
    ((rsaLoadPrivatePEM oPr none n s).1 = 0 ∧
      (rsaLoadPrivatePEM oPr none n s).2.isvalid = false ∧
      ∀ oPr' : LoadPrivPEMOracle,
        rsaLoadPrivatePEM oPr' none n s = rsaLoadPrivatePEM oPr none n s) := by
  unfold rsaLoadDER rsaLoadPEM rsaLoadPrivatePEM
  simp

/-- C4: for every key object with `isprivate = true`, every message and
every output capacity, `rsaSign` returns 0 whenever the output capacity is
strictly smaller than `rsaSignSize`, returns 0 whenever any of the digest
init, update or finalize primitive calls fails (a finalize that reports a
non-positive length counts as a failed finalize, exactly the check at
line 296 of the source), and otherwise returns the actual signature
length, which is strictly positive. -/
theorem rsaSign_returns (o : SignOracle) (sl : Int) (ib : List Nat)
    (il : Int) (s : s_rsa) (hp : s.isprivate = true) :
    (sl < rsaSignSize s → (rsaSign o sl ib il s).1 = 0) ∧
    ((o.initOk = false ∨ o.updateOk = false ∨ o.finalOk = false ∨
        o.finalLen ≤ 0) → (rsaSign o sl ib il s).1 = 0) ∧
    (rsaSignSize s ≤ sl → o.initOk = true → o.updateOk = true →
      o.finalOk = true → 0 < o.finalLen →
      (rsaSign o sl ib il s).1 = o.finalLen ∧
        0 < (rsaSign o sl ib il s).1) := by
  unfold rsaSign
  dsimp only
  split_ifs <;> simp_all <;> omega

/-- Witness for C4: on the generated private key, a zero-capacity call
returns 0, a failed finalize returns 0, and a full-capacity call with
working primitives returns the 256-byte signature length. -/
theorem rsaSign_returns_witness :
    (rsaSign oSignOk 0 [1] 1 sPriv).1 = 0 ∧
    (rsaSign oSignFail 256 [1] 1 sPriv).1 = 0 ∧
    ((rsaSign oSignOk 256 [1] 1 sPriv).1 = 256 ∧
      0 < (rsaSign oSignOk 256 [1] 1 sPriv).1) :=
  ⟨(rsaSign_returns oSignOk 0 [1] 1 sPriv (by decide)).1 (by decide),
   (rsaSign_returns oSignFail 256 [1] 1 sPriv (by decide)).2.1
     (Or.inr (Or.inr (Or.inl rfl))),
   (rsaSign_returns oSignOk 256 [1] 1 sPriv (by decide)).2.2 (by decide)
     rfl rfl rfl (by decide)⟩

/-- C1 counterexample: the combination `isprivate = true`,
`isvalid = false` IS observable. From a freshly created object, a
successful `rsaGenerate(2048)` yields flags (valid, private); a subsequent
`rsaGenerate(0)` fails, clearing `isvalid` at entry (rsa.c line 135) while
never touching `isprivate`, so the reachable state `sBad` has
`isprivate = true` and `isvalid = false`. -/
theorem rsa_private_without_valid_reachable :
    Reach sBad ∧ sBad.isprivate = true ∧ sBad.isvalid = false := by
  have h0 : Reach (rsaCreateOk 0) := Reach.create 0
  have h1 : Reach sPriv := Reach.generate oGenOk 2048 h0
  exact ⟨Reach.generate oGenAny 0 h1, by decide, by decide⟩

/-- C1 amended: in every state reachable by sequences of the module's
operations in which every `rsaGenerate`, `rsaLoadDER`, `rsaLoadPEM` and
`rsaLoadPrivatePEM` call succeeds (`rsaImportKey`, `rsaReset` and the
read-side operations unrestricted), `isprivate = true` implies
`isvalid = true`. A failing in-memory load or generate clears `isvalid`
but leaves `isprivate` unchanged and can expose the combination
`isprivate = true`, `isvalid = false`. -/
theorem rsa_priv_implies_valid_of_successful_loads (s : s_rsa)
    (h : ReachOk s) (hp : s.isprivate = true) : s.isvalid = true := by
  induction h with
  | create md => simp [rsaCreateOk] at hp
  | reset _ _ => simp [rsaReset] at hp
  | importKey o _ ih =>
      rcases rsaImportKey_flag_cases o _ with ⟨_, hv, _⟩ | ⟨_, hv, hpr⟩
      · exact hv
      · rw [hpr] at hp
        rw [hv]
        exact ih hp
  | generate o ks _ hok ih =>
      rcases rsaGenerate_flag_cases o ks _ with ⟨_, hv, _⟩ | ⟨h0, _, _⟩
      · exact hv
      · rw [hok] at h0
        exact absurd h0 (by decide)
  | loadDER minsize o pk n _ hok ih =>
      rcases rsaLoadDER_flag_cases minsize o pk n _ with ⟨_, hv, _⟩ | ⟨h0, _, _⟩
      · exact hv
      · rw [hok] at h0
        exact absurd h0 (by decide)
  | loadPEM o pk n _ hok ih =>
      rcases rsaLoadPEM_flag_cases o pk n _ with ⟨_, hv, _⟩ | ⟨h0, _, _⟩
      · exact hv
      · rw [hok] at h0
        exact absurd h0 (by decide)
  | loadPrivatePEM o pk n _ hok ih =>
      rcases rsaLoadPrivatePEM_flag_cases o pk n _ with ⟨_, hv, _⟩ | ⟨h0, _, _⟩
      · exact hv
      · rw [hok] at h0
        exact absurd h0 (by decide)
  | sign o sl ib il _ ih =>
      rw [(rsaSign_frame o sl ib il _).2.1] at hp
      rw [(rsaSign_frame o sl ib il _).1]
      exact ih hp
  | verify o sb sl ib il _ ih =>
      rw [(rsaVerify_frame o sb sl ib il _).2.1] at hp
      rw [(rsaVerify_frame o sb sl ib il _).1]
      exact ih hp
  | getDER minsize cap _ ih =>
      rw [rsaGetDER_state] at hp
      rw [rsaGetDER_state]
      exact ih hp
  | getDERSize _ ih => exact ih hp
  | getFingerprint _ ih => exact ih hp

/-- Witness for the amended C1: the state after a successful
`rsaGenerate(2048)` on a fresh object is reachable through succeeding
acquisitions, has `isprivate = true`, and the theorem yields
`isvalid = true`. -/
theorem rsa_priv_implies_valid_witness : sPriv.isvalid = true :=
  rsa_priv_implies_valid_of_successful_loads sPriv
    (ReachOk.generate oGenOk 2048 (ReachOk.create 0) (by decide)) (by decide)

/-- C2 counterexample: failed acquisition does NOT leave both flags false.
On the reachable state `sPriv` (valid private key), a failing `rsaLoadDER`
(decoder rejects the bytes) returns 0 but leaves `isprivate = true`, and a
failing `rsaImportKey` (file not accessible) returns 0 while `isvalid` is
still `true`. -/
theorem rsa_loader_failure_flags_cex :
    Reach sPriv ∧
    ((rsaLoadDER 32 none (some [1]) 100 sPriv).1 = 0 ∧
      (rsaLoadDER 32 none (some [1]) 100 sPriv).2.isprivate = true) ∧
    ((rsaImportKey oImportFail sPriv).1 = 0 ∧
      (rsaImportKey oImportFail sPriv).2.isvalid = true) :=
  ⟨Reach.generate oGenOk 2048 (Reach.create 0), by decide, by decide⟩

/-- C2 amended: when `rsaGenerate`, `rsaLoadDER`, `rsaLoadPEM` or
`rsaLoadPrivatePEM` returns failure, `isvalid` is false afterwards but
`isprivate` keeps its pre-call value; when `rsaImportKey` returns failure,
both flags keep their pre-call values (a previously valid object still
reports valid after a failed import). -/
theorem rsa_loader_failure_flag_behavior (s : s_rsa) :
    (∀ (o : GenOracle) (ks : Int), (rsaGenerate o ks s).1 = 0 →
      (rsaGenerate o ks s).2.isvalid = false ∧
        (rsaGenerate o ks s).2.isprivate = s.isprivate) ∧
    (∀ (minsize : Int) (o : Option KeyMaterial) (pk : Option (List Nat))
        (n : Int), (rsaLoadDER minsize o pk n s).1 = 0 →
      (rsaLoadDER minsize o pk n s).2.isvalid = false ∧
        (rsaLoadDER minsize o pk n s).2.isprivate = s.isprivate) ∧
    (∀ (o : LoadPEMOracle) (pk : Option (List Nat)) (n : Int),
      (rsaLoadPEM o pk n s).1 = 0 →
      (rsaLoadPEM o pk n s).2.isvalid = false ∧
        (rsaLoadPEM o pk n s).2.isprivate = s.isprivate) ∧
    (∀ (o : LoadPrivPEMOracle) (pk : Option (List Nat)) (n : Int),
      (rsaLoadPrivatePEM o pk n s).1 = 0 →
      (rsaLoadPrivatePEM o pk n s).2.isvalid = false ∧
        (rsaLoadPrivatePEM o pk n s).2.isprivate = s.isprivate) ∧
    (∀ o : ImportOracle, (rsaImportKey o s).1 = 0 →
      (rsaImportKey o s).2.isvalid = s.isvalid ∧
        (rsaImportKey o s).2.isprivate = s.isprivate) := by
  refine ⟨fun o ks h0 => ?_, fun minsize o pk n h0 => ?_,
    fun o pk n h0 => ?_, fun o pk n h0 => ?_, fun o h0 => ?_⟩
  · rcases rsaGenerate_flag_cases o ks s with ⟨h1, _, _⟩ | ⟨_, hv, hpr⟩
    · rw [h0] at h1
      exact absurd h1 (by decide)
    · exact ⟨hv, hpr⟩
  · rcases rsaLoadDER_flag_cases minsize o pk n s with ⟨h1, _, _⟩ | ⟨_, hv, hpr⟩
    · rw [h0] at h1
      exact absurd h1 (by decide)
    · exact ⟨hv, hpr⟩
  · rcases rsaLoadPEM_flag_cases o pk n s with ⟨h1, _, _⟩ | ⟨_, hv, hpr⟩
    · rw [h0] at h1
      exact absurd h1 (by decide)
    · exact ⟨hv, hpr⟩
  · rcases rsaLoadPrivatePEM_flag_cases o pk n s with ⟨h1, _, _⟩ | ⟨_, hv, hpr⟩
    · rw [h0] at h1
      exact absurd h1 (by decide)
    · exact ⟨hv, hpr⟩
  · rcases rsaImportKey_flag_cases o s with ⟨h1, _, _⟩ | ⟨_, hv, hpr⟩
    · rw [h0] at h1
      exact absurd h1 (by decide)
    · exact ⟨hv, hpr⟩

/-- Witness for the amended C2: on the valid private-key state `sPriv`,
one failing call of each of the five acquisition operations shows the
stated flag behaviour. -/
theorem rsa_loader_failure_flag_behavior_witness :
    ((rsaGenerate oGenAny 0 sPriv).2.isvalid = false ∧
      (rsaGenerate oGenAny 0 sPriv).2.isprivate = sPriv.isprivate) ∧
    ((rsaLoadDER 32 none (some [2]) 100 sPriv).2.isvalid = false ∧
      (rsaLoadDER 32 none (some [2]) 100 sPriv).2.isprivate =
        sPriv.isprivate) ∧
    ((rsaLoadPEM oLoadPEMFail (some [2]) 100 sPriv).2.isvalid = false ∧
      (rsaLoadPEM oLoadPEMFail (some [2]) 100 sPriv).2.isprivate =
        sPriv.isprivate) ∧
    ((rsaLoadPrivatePEM oLoadPrivPEMFail (some [2]) 100 sPriv).2.isvalid =
        false ∧
      (rsaLoadPrivatePEM oLoadPrivPEMFail (some [2]) 100 sPriv).2.isprivate =
        sPriv.isprivate) ∧
    ((rsaImportKey oImportFail sPriv).2.isvalid = sPriv.isvalid ∧
      (rsaImportKey oImportFail sPriv).2.isprivate = sPriv.isprivate) :=
  ⟨(rsa_loader_failure_flag_behavior sPriv).1 oGenAny 0 (by decide),
   (rsa_loader_failure_flag_behavior sPriv).2.1 32 none (some [2]) 100
     (by decide),
   (rsa_loader_failure_flag_behavior sPriv).2.2.1 oLoadPEMFail (some [2]) 100
     (by decide),
   (rsa_loader_failure_flag_behavior sPriv).2.2.2.1 oLoadPrivPEMFail
     (some [2]) 100 (by decide),
   (rsa_loader_failure_flag_behavior sPriv).2.2.2.2 oImportFail (by decide)⟩

/-- C6 counterexample: after a failed `rsaGenerate(0)` the claim's first
two parts hold (failure returned, `isvalid = false`), but subsequent calls
do NOT all return zero/false. `rsaGenerate(0)` returns before touching the
key handle, so the previously generated private key is still installed;
`rsaSign` and `rsaVerify` consult no flag, only the handle, and with the
primitives behaving as they do on that valid key (`oSignOk`, `oVerifyOk`)
`rsaSign` returns 256 and `rsaVerify` returns 1. -/
theorem rsaGenerate_fail_then_sign_cex :
    Reach sPriv ∧
    (rsaGenerate oGenAny 0 sPriv).1 = 0 ∧
    sBad.isvalid = false ∧
    (rsaSign oSignOk 256 [1] 1 sBad).1 = 256 ∧
    (rsaVerify oVerifyOk [1] 256 [1] 1 sBad).1 = 1 :=
  ⟨Reach.generate oGenOk 2048 (Reach.create 0), by decide, by decide,
   by decide, by decide⟩

/-- C6 amended: `rsaGenerate` with a requested bit length at most 0
returns failure, clears `isvalid` and leaves the key handle unchanged;
when moreover the object's key handle holds no encodable material (as on a
freshly created object, where `i2d_PublicKey` reports a non-positive
length and the sign/verify finalize primitives fail) and `RSA_MINSIZE` is
non-negative, subsequent `rsaGetDER`, `rsaSign` and `rsaVerify` calls
return zero/false. -/
theorem rsaGenerate_fail_invalidates (o : GenOracle) (ks : Int)
    (hks : ks ≤ 0) (s : s_rsa) (minsize cap : Int) (hmin : 0 ≤ minsize)
    (hkey : s.key.derLen ≤ 0) (so : SignOracle) (hso : so.finalOk = false)
    (sl : Int) (ib : List Nat) (il : Int) (vo : VerifyOracle)
    (hvo : vo.finalOk = false) (sb : List Nat) (vsl : Int) (vib : List Nat)
    (vil : Int) :
    (rsaGenerate o ks s).1 = 0 ∧
    (rsaGenerate o ks s).2.isvalid = false ∧
    (rsaGenerate o ks s).2.key = s.key ∧
    (rsaGetDER minsize cap (rsaGenerate o ks s).2).1 = 0 ∧
    (rsaSign so sl ib il (rsaGenerate o ks s).2).1 = 0 ∧
    (rsaVerify vo sb vsl vib vil (rsaGenerate o ks s).2).1 = 0 := by
  have hgen : rsaGenerate o ks s = (0, { s with isvalid := false }) := by
    unfold rsaGenerate
    dsimp only
    rw [if_pos hks]
  refine ⟨by rw [hgen], by rw [hgen], by rw [hgen], ?_, ?_, ?_⟩
  · rw [hgen]
    unfold rsaGetDER rsaGetDERSize
    dsimp only
    split_ifs <;> simp_all <;> omega
  · rw [hgen]
    unfold rsaSign
    dsimp only
    split_ifs <;> simp_all
  · rw [hgen]
    unfold rsaVerify
    split_ifs <;> simp_all

/-- Witness for the amended C6: a failed `rsaGenerate(0)` on a freshly
created object, with `RSA_MINSIZE = 32`, capacity 512, and the failing
primitive behaviour of the empty key handle. -/
theorem rsaGenerate_fail_invalidates_witness :
    (rsaGenerate oGenAny 0 (rsaCreateOk 0)).1 = 0 ∧
    (rsaGenerate oGenAny 0 (rsaCreateOk 0)).2.isvalid = false ∧
    (rsaGenerate oGenAny 0 (rsaCreateOk 0)).2.key = (rsaCreateOk 0).key ∧
    (rsaGetDER 32 512 (rsaGenerate oGenAny 0 (rsaCreateOk 0)).2).1 = 0 ∧
    (rsaSign oSignFail 0 [1] 1 (rsaGenerate oGenAny 0 (rsaCreateOk 0)).2).1 =
      0 ∧
    (rsaVerify oVerifyFail [1] 1 [1] 1
        (rsaGenerate oGenAny 0 (rsaCreateOk 0)).2).1 = 0 :=
  rsaGenerate_fail_invalidates oGenAny 0 (by decide) (rsaCreateOk 0) 32 512
    (by decide) (by decide) oSignFail rfl 0 [1] 1 oVerifyFail rfl [1] 1 [1] 1
